import Mathlib

/-!
Verification development for the LiveWell-E check-in backend.

Text is modelled as `List Char` (Python `str`), JSON-like Python values as
the inductive `Val`, and Python dicts as association lists looked up by
first occurrence.  Functions are shallow embeddings of the Python source in
`app/` (and, where noted, the `livewell-e/backend/app/` variant):
operations that can raise in Python are modelled in `Except PyErr`.
-/

/-- Convert a Lean string literal to the `List Char` text representation. -/
def str (s : String) : List Char := s.toList

/-- Python `\s` / `str.strip` whitespace over ASCII. -/
def isSpaceB (c : Char) : Bool :=
  c = ' ' || c = '\t' || c = '\n' || c = '\r' || c = '\x0b' || c = '\x0c'

/-- ASCII lowercase of one character (Python `str.lower`, ASCII fragment). -/
def asciiLower (c : Char) : Char :=
  if 'A' ≤ c && c ≤ 'Z' then Char.ofNat (c.toNat + 32) else c

/-- Python `str.lower` (ASCII fragment). -/
def lowerL (s : List Char) : List Char := s.map asciiLower

/-- Python `str.strip()`. -/
def stripL (s : List Char) : List Char :=
  ((s.dropWhile isSpaceB).reverse.dropWhile isSpaceB).reverse

/-- ASCII digit test (Python `\d`, ASCII fragment). -/
def isDigitB (c : Char) : Bool := '0' ≤ c && c ≤ '9'

/-- ASCII letter test (regex class `[a-zA-Z]`). -/
def isAsciiAlphaB (c : Char) : Bool :=
  ('a' ≤ c && c ≤ 'z') || ('A' ≤ c && c ≤ 'Z')

/-- Python regex word character `\w` (ASCII fragment): `[a-zA-Z0-9_]`. -/
def wordCharB (c : Char) : Bool := isAsciiAlphaB c || isDigitB c || c = '_'

/-- Python `str.startswith`. -/
def lstartsWith : List Char → List Char → Bool
  | [], _ => true
  | _ :: _, [] => false
  | c :: cs, x :: xs => c = x && lstartsWith cs xs

/-- Python `needle in haystack` substring containment. -/
def containsSub (nd : List Char) : List Char → Bool
  | [] => nd.isEmpty
  | c :: r => lstartsWith nd (c :: r) || containsSub nd r

/-- The literal word `w` matches at the start of `s` and is followed by a
word boundary (end of text or a non-word character). -/
def wordAt (w s : List Char) : Bool :=
  lstartsWith w s &&
    (match s.drop w.length with
     | [] => true
     | c :: _ => !wordCharB c)

/-- Scan `s` left to right; at every position preceded by a word boundary
(start of text or a non-word character) test `p` on the remaining suffix.
This is `re.search` for a pattern of the form `\b...`: the boolean argument
records whether the previous character was a word character. -/
def scanBdry (p : List Char → Bool) : Bool → List Char → Bool
  | _, [] => false
  | prevW, c :: rest => (!prevW && p (c :: rest)) || scanBdry p (wordCharB c) rest

/-- `re.search(r"\bw\b", s)` for a literal word `w` starting and ending in
word characters. -/
def wholeWord (w s : List Char) : Bool := scanBdry (wordAt w) false s

/-- Numeric value of a digit run. -/
def digitsToInt (ds : List Char) : Int :=
  ds.foldl (fun a c => a * 10 + ((c.toNat : Int) - 48)) 0

/-- Python `str(n)` for an `int`. -/
def pyIntStr (n : Int) : List Char :=
  if n < 0 then '-' :: Nat.toDigits 10 n.natAbs else Nat.toDigits 10 n.toNat

/-- Python exceptions that the embedded code can raise. -/
inductive PyErr where
  | keyError
  | indexError
  | valueError
  | typeError
  | attributeError
deriving DecidableEq, Repr

/-- JSON-like Python values: `None`, `bool`, `int`, `str`, `list`, `dict`
(dicts as insertion-ordered association lists). -/
inductive Val where
  | null : Val
  | bool : Bool → Val
  | int : Int → Val
  | str : List Char → Val
  | list : List Val → Val
  | dict : List (List Char × Val) → Val

/-- Dict lookup by key (first binding wins, as in a Python dict). -/
def alookup {α : Type} : List (List Char × α) → List Char → Option α
  | [], _ => none
  | (k, v) :: rest, key => if k = key then some v else alookup rest key

/-- Dict assignment `d[k] = v`: update in place if present, else append
(Python dicts preserve insertion order). -/
def aset {α : Type} : List (List Char × α) → List Char → α → List (List Char × α)
  | [], k, v => [(k, v)]
  | (k0, v0) :: rest, k, v =>
    if k0 = k then (k0, v) :: rest else (k0, v0) :: aset rest k v

/-- Python `str(x)`.  The `repr` of containers is not spelled out exactly
(it never parses as a number and never reaches user-visible output in the
verified flows), only its non-numeric shape matters. -/
def pyStrVal : Val → List Char
  | .str s => s
  | .int n => pyIntStr n
  | .bool b => if b then str "True" else str "False"
  | .null => str "None"
  | .list _ => str "[...]"
  | .dict _ => str "\x7b...\x7d"

/-- Python truthiness `bool(x)`. -/
def valTruthy : Val → Bool
  | .null => false
  | .bool b => b
  | .int n => n != 0
  | .str s => !s.isEmpty
  | .list xs => !xs.isEmpty
  | .dict d => !d.isEmpty

/-- Strict Python `int(x)` (as used outside `_as_int`): ints and bools
convert, strings must be an optionally signed digit string (surrounding
whitespace allowed), anything else raises. -/
def pyIntLit (s : List Char) : Option Int :=
  match s with
  | '-' :: ds => if ds ≠ [] && ds.all isDigitB then some (-(digitsToInt ds)) else none
  | '+' :: ds => if ds ≠ [] && ds.all isDigitB then some (digitsToInt ds) else none
  | ds => if ds ≠ [] && ds.all isDigitB then some (digitsToInt ds) else none

/-- Python `int(x)` with exception behaviour. -/
def pyIntOfVal : Val → Except PyErr Int
  | .int n => .ok n
  | .bool b => .ok (if b then 1 else 0)
  | .str s =>
    match pyIntLit (stripL s) with
    | some n => .ok n
    | none => .error .valueError
  | .null => .error .typeError
  | .list _ => .error .typeError
  | .dict _ => .error .typeError

/-- Python `x or y` for a value and a default (returns `y` when `x` is
falsy). -/
def valOr (x y : Val) : Val := if valTruthy x then x else y

-- ---------------------------------------------------------------------------
-- app/tools/frailty.py
-- ---------------------------------------------------------------------------

/-- One PRISMA-7 item: `{key, question, reverse}` from `PRISMA_QUESTIONS`. -/
structure PrismaQ where
  key : List Char
  text : List Char
  reverse : Bool
deriving DecidableEq

/-- The fixed ordered PRISMA-7 question list of `app/tools/frailty.py`;
`reverse = true` means NO counts as 1 instead of YES. -/
def PRISMA_QUESTIONS : List PrismaQ :=
  [⟨str "over_85", str "Are you over 85? (yes/no)", false⟩,
   ⟨str "male", str "Are you male? (yes/no)", false⟩,
   ⟨str "limit_activities", str "Do health problems limit your activities? (yes/no)", false⟩,
   ⟨str "need_help_regularly", str "Do you need help on a regular basis? (yes/no)", false⟩,
   ⟨str "stay_home", str "Do health problems force you to stay at home? (yes/no)", false⟩,
   ⟨str "someone_close", str "In case of need, can you count on someone close to you? (yes/no)", true⟩,
   ⟨str "use_aid", str "Do you regularly use a cane, walker, or wheelchair? (yes/no)", false⟩]

/-- `_normalize_bool`: bools pass through, `None` fails, anything else is
compared as `str(value).strip().lower()` against the yes/no token sets. -/
def _normalize_bool (v : Val) : Option Bool :=
  match v with
  | .bool b => some b
  | .null => none
  | _ =>
    let s := lowerL (stripL (pyStrVal v))
    if [str "y", str "yes", str "true", str "1"].contains s then some true
    else if [str "n", str "no", str "false", str "0"].contains s then some false
    else none

/-- Normalization of `answers.get(k, None)`: a missing key behaves like a
stored `None`. -/
def nbOpt (v : Option Val) : Option Bool :=
  match v with
  | none => none
  | some x => _normalize_bool x

/-- First pass of `prisma7_score`: ensure every question key is present and
parseable, returning the normalized mapping, else `none`. -/
def normalizeAnswers : List PrismaQ → List (List Char × Val) → Option (List (List Char × Bool))
  | [], _ => some []
  | q :: qs, ans =>
    match alookup ans q.key with
    | none => none
    | some v =>
      match _normalize_bool v with
      | none => none
      | some b =>
        match normalizeAnswers qs ans with
        | none => none
        | some rest => some ((q.key, b) :: rest)

/-- Second pass of `prisma7_score`: sum one point per question answered in
the risk direction, with reverse coding.  The `getD false` default is
unreachable because the first pass recorded every key. -/
def scoreLoop : List PrismaQ → List (List Char × Bool) → Int
  | [], _ => 0
  | q :: qs, nm =>
    let v := (alookup nm q.key).getD false
    (if q.reverse then (if v then 0 else 1) else (if v then 1 else 0)) + scoreLoop qs nm

/-- `prisma7_score`: `None` if any answer is missing/invalid, else the
0..7 score. -/
def prisma7_score (answers : List (List Char × Val)) : Option Int :=
  match normalizeAnswers PRISMA_QUESTIONS answers with
  | none => none
  | some nm => some (scoreLoop PRISMA_QUESTIONS nm)

/-- Loop body of `prisma7_next_unanswered`. -/
def nextLoop : List PrismaQ → List (List Char × Val) → Option (List Char × List Char)
  | [], _ => none
  | q :: qs, ans =>
    match nbOpt (alookup ans q.key) with
    | none => some (q.key, q.text)
    | some _ => nextLoop qs ans

/-- `prisma7_next_unanswered`: first fixed-order question whose answer does
not normalize to a boolean, or `none` when complete. -/
def prisma7_next_unanswered (answers : List (List Char × Val)) :
    Option (List Char × List Char) :=
  nextLoop PRISMA_QUESTIONS answers

/-- A complete boolean PRISMA answer set, in fixed key order. -/
def mkPrismaAnswers (b1 b2 b3 b4 b5 b6 b7 : Bool) : List (List Char × Val) :=
  [(str "over_85", .bool b1), (str "male", .bool b2),
   (str "limit_activities", .bool b3), (str "need_help_regularly", .bool b4),
   (str "stay_home", .bool b5), (str "someone_close", .bool b6),
   (str "use_aid", .bool b7)]

/-- One risk point. -/
def bpt (b : Bool) : Int := if b then 1 else 0

-- ---------------------------------------------------------------------------
-- Frailty scorer lemmas
-- ---------------------------------------------------------------------------

/-- If any question of `qs` has no normalizable answer in `ans`, the
normalization pass fails. -/
theorem normalizeAnswers_eq_none {qs : List PrismaQ} {ans : List (List Char × Val)}
    {q : PrismaQ} (hq : q ∈ qs) (h : nbOpt (alookup ans q.key) = none) :
    normalizeAnswers qs ans = none := by
  induction qs with
  | nil => cases hq
  | cons q0 qs ih =>
    rcases List.mem_cons.mp hq with hq0 | hqs
    · subst hq0
      cases hl : alookup ans q.key with
      | none => simp [normalizeAnswers, hl]
      | some v =>
        have hb : _normalize_bool v = none := by simpa [nbOpt, hl] using h
        simp [normalizeAnswers, hl, hb]
    · cases hl : alookup ans q0.key with
      | none => simp [normalizeAnswers, hl]
      | some v =>
        cases hb : _normalize_bool v with
        | none => simp [normalizeAnswers, hl, hb]
        | some b => simp [normalizeAnswers, hl, hb, ih hqs]

/-- The normalization pass succeeds exactly when the wizard driver finds no
unanswered question. -/
theorem normalizeAnswers_isSome_iff_nextLoop_none
    (qs : List PrismaQ) (ans : List (List Char × Val)) :
    (normalizeAnswers qs ans).isSome = true ↔ nextLoop qs ans = none := by
  induction qs with
  | nil => simp [normalizeAnswers, nextLoop]
  | cons q qs ih =>
    unfold normalizeAnswers nextLoop
    cases hl : alookup ans q.key with
    | none => simp [nbOpt]
    | some v =>
      cases hb : _normalize_bool v with
      | none => simp [nbOpt, hb]
      | some b =>
        simp only [nbOpt, hb]
        cases hr : normalizeAnswers qs ans with
        | none => simpa [hr] using ih
        | some rest => simpa [hr] using ih

-- ---------------------------------------------------------------------------
-- Claims C1, C6, C10 (frailty scorer)
-- ---------------------------------------------------------------------------

/-- C1: for every complete answer set mapping all 7 fixed PRISMA keys to
booleans, `prisma7_score` returns the sum of one risk point per question —
six questions score on `true`, the reverse-coded `someone_close` question
scores on `false` — so the score is an integer in [0,7]; flipping only
`someone_close` changes the score by exactly 1 in the opposite direction of
flipping any of the six normal keys.  (Determinism is intrinsic: the
embedded scorer is a pure function of the answer set.) -/
theorem prisma7_score_complete_boolean :
    ∀ b1 b2 b3 b4 b5 b6 b7 : Bool,
      (prisma7_score (mkPrismaAnswers b1 b2 b3 b4 b5 b6 b7) =
        some (bpt b1 + bpt b2 + bpt b3 + bpt b4 + bpt b5 + bpt (!b6) + bpt b7))
      ∧ (0 ≤ bpt b1 + bpt b2 + bpt b3 + bpt b4 + bpt b5 + bpt (!b6) + bpt b7
          ∧ bpt b1 + bpt b2 + bpt b3 + bpt b4 + bpt b5 + bpt (!b6) + bpt b7 ≤ 7)
      ∧ (prisma7_score (mkPrismaAnswers b1 b2 b3 b4 b5 false b7) =
          Option.map (fun s => s + 1)
            (prisma7_score (mkPrismaAnswers b1 b2 b3 b4 b5 true b7)))
      ∧ (prisma7_score (mkPrismaAnswers true b2 b3 b4 b5 b6 b7) =
          Option.map (fun s => s + 1)
            (prisma7_score (mkPrismaAnswers false b2 b3 b4 b5 b6 b7)))
      ∧ (prisma7_score (mkPrismaAnswers b1 true b3 b4 b5 b6 b7) =
          Option.map (fun s => s + 1)
            (prisma7_score (mkPrismaAnswers b1 false b3 b4 b5 b6 b7)))
      ∧ (prisma7_score (mkPrismaAnswers b1 b2 true b4 b5 b6 b7) =
          Option.map (fun s => s + 1)
            (prisma7_score (mkPrismaAnswers b1 b2 false b4 b5 b6 b7)))
      ∧ (prisma7_score (mkPrismaAnswers b1 b2 b3 true b5 b6 b7) =
          Option.map (fun s => s + 1)
            (prisma7_score (mkPrismaAnswers b1 b2 b3 false b5 b6 b7)))
      ∧ (prisma7_score (mkPrismaAnswers b1 b2 b3 b4 true b6 b7) =
          Option.map (fun s => s + 1)
            (prisma7_score (mkPrismaAnswers b1 b2 b3 b4 false b6 b7)))
      ∧ (prisma7_score (mkPrismaAnswers b1 b2 b3 b4 b5 b6 true) =
          Option.map (fun s => s + 1)
            (prisma7_score (mkPrismaAnswers b1 b2 b3 b4 b5 b6 false))) := by
  decide

/-- C6: if any of the 7 fixed PRISMA keys is missing from the answer
mapping or fails to normalize to a boolean, `prisma7_score` reports
incomplete (`none`), never a number. -/
theorem prisma7_score_incomplete_none (ans : List (List Char × Val))
    (h : ∃ q ∈ PRISMA_QUESTIONS, nbOpt (alookup ans q.key) = none) :
    prisma7_score ans = none := by
  obtain ⟨q, hq, hfail⟩ := h
  unfold prisma7_score
  rw [normalizeAnswers_eq_none hq hfail]

/-- An answer set with six boolean answers and one unparseable string. -/
def ansIncompleteW : List (List Char × Val) :=
  [(str "over_85", .bool false), (str "male", .bool false),
   (str "limit_activities", .bool false), (str "need_help_regularly", .bool false),
   (str "stay_home", .bool false), (str "someone_close", .str (str "maybe")),
   (str "use_aid", .bool false)]

/-- Witness for C6 at a concrete incomplete answer set. -/
theorem prisma7_score_incomplete_none_witness :
    (∃ q ∈ PRISMA_QUESTIONS, nbOpt (alookup ansIncompleteW q.key) = none)
    ∧ prisma7_score ansIncompleteW = none :=
  have h : ∃ q ∈ PRISMA_QUESTIONS, nbOpt (alookup ansIncompleteW q.key) = none :=
    ⟨⟨str "someone_close",
      str "In case of need, can you count on someone close to you? (yes/no)", true⟩,
     by decide, by decide⟩
  ⟨h, prisma7_score_incomplete_none ansIncompleteW h⟩

/-- C10: for every PRISMA answers mapping, `prisma7_score` returns a number
exactly when `prisma7_next_unanswered` returns `none`: the scorer and the
wizard driver agree on completeness (a key counts as answered only when its
value normalizes to a boolean). -/
theorem prisma7_score_some_iff_next_none (ans : List (List Char × Val)) :
    (prisma7_score ans).isSome = true ↔ prisma7_next_unanswered ans = none := by
  unfold prisma7_score prisma7_next_unanswered
  cases hn : normalizeAnswers PRISMA_QUESTIONS ans with
  | none =>
    simpa [hn] using normalizeAnswers_isSome_iff_nextLoop_none PRISMA_QUESTIONS ans
  | some nm =>
    simpa [hn] using normalizeAnswers_isSome_iff_nextLoop_none PRISMA_QUESTIONS ans

-- ---------------------------------------------------------------------------
-- app/tools/routine.py
-- ---------------------------------------------------------------------------

/-- A slots mapping (Python `Dict[str, Any]`). -/
def Slots : Type := List (List Char × Val)

/-- An optional plan suggester; it may raise (modelled as `Except Unit`)
and may return any JSON-like value. -/
def SuggFn : Type := Slots → Option Int → Except Unit Val

/-- Truncating parse backing `_as_int`: `int(float(s))` for an optionally
signed decimal literal with optional fraction.  Exotic float syntax
(exponents, `inf`, `nan`, digit underscores) is treated as unparseable;
`int(float(...))` on those either raises (absorbed by the `except` into the
default, as here) or never occurs in the verified flows. -/
def pyFloatTrunc (s : List Char) : Option Int :=
  let signed : Int × List Char :=
    match s with
    | '-' :: r => (-1, r)
    | '+' :: r => (1, r)
    | r => (1, r)
  let ip := signed.2.takeWhile isDigitB
  let r2 := signed.2.drop ip.length
  match r2 with
  | [] => if ip.isEmpty then none else some (signed.1 * digitsToInt ip)
  | '.' :: fr =>
    if fr.all isDigitB && (!ip.isEmpty || !fr.isEmpty) then
      some (signed.1 * digitsToInt ip)
    else none
  | _ => none

/-- `_as_int`: `int(float(str(x).strip()))` with a default on any failure,
then clamped between the optional bounds.  A missing key (`slots.get`
returning `None`) stringifies to `"None"` and falls back to the default. -/
def _as_int (x : Option Val) (default : Int) (lo hi : Option Int) : Int :=
  let v :=
    match pyFloatTrunc (stripL (pyStrVal (x.getD .null))) with
    | some n => n
    | none => default
  let v2 := match lo with | some l => max l v | none => v
  match hi with | some h => min h v2 | none => v2

/-- `_as_str`: `str(x).strip()`, or the default when that is empty.  Note
`str(None) = "None"` is non-empty, so a missing key yields `"None"`,
not the default — the embedding preserves this source quirk. -/
def _as_str (x : Option Val) (default : List Char) : List Char :=
  let s := stripL (pyStrVal (x.getD .null))
  if s.isEmpty then default else s

/-- `_risk_from_score`: fixed thresholds 0-2 low, 3-4 moderate, 5+ high;
missing score is moderate. -/
def _risk_from_score : Option Int → List Char
  | none => str "moderate"
  | some s => if s ≤ 2 then str "low" else if s ≤ 4 then str "moderate" else str "high"

/-- `isinstance(i, str)`. -/
def isStrV : Val → Bool
  | .str _ => true
  | _ => false

/-- `isinstance(x, list) and all(isinstance(i, str) for i in x)`. -/
def isStrListV : Val → Bool
  | .list xs => xs.all isStrV
  | _ => false

/-- The `notes` entry accepted by `_validate_plan`: `obj.get("notes", [])`
replaced by `[]` unless it is a list of strings. -/
def validatedNotes (d : List (List Char × Val)) : Val :=
  match alookup d (str "notes") with
  | some n => if isStrListV n then n else Val.list []
  | none => Val.list []

/-- The `risk` entry accepted by `_validate_plan`: kept only when it is one
of the three band strings, else `"moderate"`. -/
def validatedRisk (d : List (List Char × Val)) : Val :=
  match alookup d (str "risk") with
  | some (.str r) =>
    if [str "low", str "moderate", str "high"].contains r then Val.str r
    else Val.str (str "moderate")
  | _ => Val.str (str "moderate")

/-- `_validate_plan`: `morning`/`afternoon`/`evening` must be lists of
strings, `notes` defaults to `[]` when absent or invalid, `risk` defaults
to `"moderate"` when absent or not one of the three bands. -/
def _validate_plan (obj : Val) : Option Val :=
  match obj with
  | .dict d =>
    match alookup d (str "morning"), alookup d (str "afternoon"), alookup d (str "evening") with
    | some m, some a, some e =>
      if isStrListV m && isStrListV a && isStrListV e then
        some (.dict [(str "risk", validatedRisk d), (str "morning", m),
                     (str "afternoon", a), (str "evening", e),
                     (str "notes", validatedNotes d)])
      else none
    | _, _, _ => none
  | _ => none

/-- `_pick(options, variant) = options[variant % len(options)]` for string
options (always applied to non-empty literal lists). -/
def pickS (options : List (List Char)) (variant : Int) : List Char :=
  options.getD ((variant % (options.length : Int)).toNat) []

/-- `_pick` for the strength-set options (lists of strings). -/
def pickSS (options : List (List (List Char))) (variant : Int) : List (List Char) :=
  options.getD ((variant % (options.length : Int)).toNat) []

/-- Energy-tier base step increment of `_fallback_plan`. -/
def _energy_bump (energy : Int) : Int :=
  if energy ≤ 3 then 300 else if energy ≥ 8 then 1500 else 800

/-- Risk scaling of the step increment: `int(bump * 0.6)` when risk is
high.  For every increment produced by `_energy_bump` (300, 800, 1500) the
binary floating-point product rounds to exactly 180.0, 480.0, 900.0, so
the integer expression `6 * bump / 10` is exact. -/
def _risk_scaled_bump (risk : List Char) (bump : Int) : Int :=
  if risk = str "high" then 6 * bump / 10 else bump

/-- `walk_target = int(min(8000, max(1000, steps + bump)))`. -/
def _walk_target (steps bump : Int) : Int := min 8000 (max 1000 (steps + bump))

/-- `steps_to_go = max(0, walk_target - steps)`. -/
def _steps_to_go (steps walkTarget : Int) : Int := max 0 (walkTarget - steps)

/-- Python `round(n / 2.0)` for an integer `n`: banker's rounding at the
.5 midpoints. -/
def pyRoundHalf (n : Int) : Int :=
  if n % 2 = 0 then n / 2
  else
    let m := Int.fdiv n 2
    if m % 2 = 0 then m else m + 1

/-- `_fallback_plan`: the deterministic rules-based plan.  `day` stands for
`int(datetime.utcnow().strftime("%Y%j"))`, used only when `seed` is
absent. -/
def _fallback_plan (slots : Slots) (frailty_score : Option Int)
    (seed : Option Int) (day : Int) : Val :=
  let risk := _risk_from_score frailty_score
  let mood := lowerL (_as_str (alookup slots (str "mood")) (str "okay"))
  let energy := _as_int (alookup slots (str "energy")) 5 (some 0) (some 10)
  let steps := _as_int (alookup slots (str "steps")) 0 (some 0) (some 100000)
  let seedv := seed.getD day
  let variant := seedv % 3
  let bump := _risk_scaled_bump risk (_energy_bump energy)
  let walk_target := _walk_target steps bump
  let steps_to_go := _steps_to_go steps walk_target
  let base_reps : Int := if risk = str "high" then 6 else if risk = str "moderate" then 8 else 10
  let reps := max 4 (min 14 (base_reps + pyRoundHalf (energy - 5)))
  let base_bal : Int := if risk = str "high" then 10 else if risk = str "moderate" then 15 else 20
  let bal := max 8 (min 30 (base_bal + (energy - 5)))
  let hydrate := str "Drink a glass of water (250 ml)"
  let breathers := [str "Box breathing 4-4-4-4 (5-7 min)",
                    str "4-7-8 breathing (5-7 min)",
                    str "Pursed-lip breathing (5 min)"]
  let am_moves := [str "Gentle walk: target ~" ++ pyIntStr steps_to_go ++ str " steps",
                   str "Hallway laps: aim ~" ++ pyIntStr (max 6 (Int.fdiv steps_to_go 150)) ++ str " easy passes",
                   str "Out-and-back stroll: reach ~" ++ pyIntStr steps_to_go ++ str " more steps"]
  let pm_strength_sets := [[str "Chair sit-to-stands x" ++ pyIntStr reps,
                            str "Calf raises x" ++ pyIntStr reps],
                           [str "Wall push-ups x" ++ pyIntStr reps,
                            str "Counter rows or band pulls x" ++ pyIntStr reps],
                           [str "Step-ups to a low step x" ++ pyIntStr reps,
                            str "Heel-to-toe walk 2x20 steps"]]
  let mobility_snacks := [str "Shoulder rolls and ankle circles (2 min)",
                          str "Neck turns and gentle hip circles (2 min)",
                          str "Seated cat-cow and wrist circles (2 min)"]
  let evening_winddowns := [str "Gentle stretches: hamstrings, hip flexors, chest (5 min)",
                            str "Progressive muscle relaxation (5-7 min)",
                            str "Guided mindfulness or relaxing audio (10 min)"]
  let morning := [pickS breathers variant, pickS am_moves variant, hydrate]
  let afternoon := pickSS pm_strength_sets variant ++
                   [str "Balance hold near support: " ++ pyIntStr bal ++ str "s/side",
                    pickS mobility_snacks variant, hydrate]
  let evening := [pickS evening_winddowns variant, str "Optional: 1-line gratitude note"]
  let notes := [str "Mood: " ++ mood,
                str "Energy: " ++ pyIntStr energy ++ str "/10",
                str "Steps so far: " ++ pyIntStr steps,
                str "Frailty risk (PRISMA-7): " ++ risk,
                str "Safety: stop if pain or dizziness; keep a chair or rail nearby.",
                str "If any new symptoms, consult a clinician."]
  .dict [(str "risk", .str risk),
         (str "morning", .list (morning.map .str)),
         (str "afternoon", .list (afternoon.map .str)),
         (str "evening", .list (evening.map .str)),
         (str "notes", .list (notes.map .str))]

/-- A value is a string naming one of the three risk bands. -/
def bandStrOk : Val → Bool
  | .str r => [str "low", str "moderate", str "high"].contains r
  | _ => false

/-- Membership of a Python string in a set of note values (`n in existing`
with `n` a `str`: equality against a non-`str` element is `False`). -/
def strMemV (ns : List Val) (s : List Char) : Bool :=
  ns.any (fun x =>
    match x with
    | .str t => t = s
    | _ => false)

/-- The note-enrichment step of `generate_daily_plan` after a successful
validation: extend `valid["notes"]` with the auto notes not already
present, and re-assert the `risk` band.  Operations that would raise in
Python (indexing a missing `notes`, `.extend` on a non-list) are modelled
as errors; they are unreachable after `_validate_plan`, and the caller
absorbs them into the fallback just as the source `try/except` does. -/
def enrichValid (slots : Slots) (frailty_score : Option Int) (valid : Val) :
    Except PyErr Val :=
  let mood := lowerL (_as_str (alookup slots (str "mood")) (str "okay"))
  let energy := _as_int (alookup slots (str "energy")) 5 (some 0) (some 10)
  let steps := _as_int (alookup slots (str "steps")) 0 (some 0) (some 100000)
  let risk := _risk_from_score frailty_score
  let enrich := [str "(auto) Mood: " ++ mood,
                 str "(auto) Energy: " ++ pyIntStr energy ++ str "/10",
                 str "(auto) Steps so far: " ++ pyIntStr steps,
                 str "(auto) Frailty risk: " ++ risk]
  match valid with
  | .dict d =>
    match alookup d (str "notes") with
    | some (.list ns) =>
      let ns2 := ns ++ (enrich.filter (fun n => !strMemV ns n)).map .str
      let d2 := aset d (str "notes") (.list ns2)
      let riskOkHere :=
        match alookup d2 (str "risk") with
        | some rv => bandStrOk rv
        | none => false
      .ok (.dict (if riskOkHere then d2 else aset d2 (str "risk") (.str risk)))
    | some _ => .error .attributeError
    | none => .error .keyError
  | _ => .error .typeError

/-- `generate_daily_plan`: try the suggester, validate and enrich its
output, and fall back to the rules-based plan on any failure (exception,
non-dict result, or structural validation failure). -/
def generate_daily_plan (slots : Slots) (frailty_score : Option Int)
    (sugg : Option SuggFn) (seed : Option Int) (day : Int) : Val :=
  match sugg with
  | none => _fallback_plan slots frailty_score seed day
  | some f =>
    match f slots frailty_score with
    | .error _ => _fallback_plan slots frailty_score seed day
    | .ok proposed =>
      let cand := match proposed with | .dict d => Val.dict d | _ => Val.dict []
      match _validate_plan cand with
      | none => _fallback_plan slots frailty_score seed day
      | some valid =>
        match enrichValid slots frailty_score valid with
        | .ok p => p
        | .error _ => _fallback_plan slots frailty_score seed day

-- ---------------------------------------------------------------------------
-- Plan structure facts
-- ---------------------------------------------------------------------------

/-- `p[k]` on a plan value when it is a dict. -/
def dget (p : Val) (k : List Char) : Option Val :=
  match p with
  | .dict d => alookup d k
  | _ => none

/-- Key `k` of plan `p` is present and is a list of strings. -/
def strListAt (p : Val) (k : List Char) : Bool :=
  match dget p k with
  | some v => isStrListV v
  | none => false

/-- The plan's `risk` entry is present and one of the three bands. -/
def riskBandOk (p : Val) : Bool :=
  match dget p (str "risk") with
  | some v => bandStrOk v
  | none => false

/-- The structural contract of a delivered plan. -/
def planShapeOk (p : Val) : Bool :=
  strListAt p (str "morning") && strListAt p (str "afternoon") &&
  strListAt p (str "evening") && strListAt p (str "notes") && riskBandOk p

theorem isStrListV_map_str (l : List (List Char)) :
    isStrListV (.list (l.map .str)) = true := by
  induction l with
  | nil => rfl
  | cons x xs ih => simp [isStrListV, isStrV]

theorem risk_from_score_mem (s : Option Int) :
    [str "low", str "moderate", str "high"].contains (_risk_from_score s) = true := by
  cases s with
  | none => decide
  | some n =>
    simp only [_risk_from_score]
    split_ifs <;> decide

/-- Shape of a plan dict built from string lists and a band. -/
theorem planShapeOk_dict (mo af ev no : List (List Char)) (rk : List Char)
    (h : [str "low", str "moderate", str "high"].contains rk = true) :
    planShapeOk (.dict [(str "risk", .str rk),
      (str "morning", .list (mo.map .str)), (str "afternoon", .list (af.map .str)),
      (str "evening", .list (ev.map .str)), (str "notes", .list (no.map .str))]) = true := by
  have e : planShapeOk (.dict [(str "risk", .str rk),
      (str "morning", .list (mo.map .str)), (str "afternoon", .list (af.map .str)),
      (str "evening", .list (ev.map .str)), (str "notes", .list (no.map .str))]) =
      (isStrListV (.list (mo.map .str)) && isStrListV (.list (af.map .str)) &&
       isStrListV (.list (ev.map .str)) && isStrListV (.list (no.map .str)) &&
       [str "low", str "moderate", str "high"].contains rk) := rfl
  rw [e, isStrListV_map_str, isStrListV_map_str, isStrListV_map_str, isStrListV_map_str, h]
  rfl

/-- The rules-based fallback always delivers a structurally valid plan. -/
theorem planShapeOk_fallback (slots : Slots) (score : Option Int)
    (seed : Option Int) (day : Int) :
    planShapeOk (_fallback_plan slots score seed day) = true := by
  exact planShapeOk_dict _ _ _ _ _ (risk_from_score_mem score)

theorem alookup_aset_self {α : Type} (d : List (List Char × α)) (k : List Char) (v : α) :
    alookup (aset d k v) k = some v := by
  induction d with
  | nil => simp [aset, alookup]
  | cons kv rest ih =>
    obtain ⟨k0, v0⟩ := kv
    by_cases hk : k0 = k
    · subst hk
      simp [aset, alookup]
    · simp [aset, alookup, hk, ih]

theorem alookup_aset_ne {α : Type} (d : List (List Char × α)) (k k2 : List Char) (v : α)
    (h : ¬ k = k2) : alookup (aset d k v) k2 = alookup d k2 := by
  induction d with
  | nil => simp [aset, alookup, h]
  | cons kv rest ih =>
    obtain ⟨k0, v0⟩ := kv
    by_cases hk : k0 = k
    · subst hk
      simp [aset, alookup, h]
    · have e1 : aset ((k0, v0) :: rest) k v = (k0, v0) :: aset rest k v := by
        simp [aset, hk]
      rw [e1]
      by_cases hk2 : k0 = k2
      · simp [alookup, hk2]
      · simp [alookup, hk2, ih]

theorem isStrListV_append_map_str (ns : List Val) (l : List (List Char))
    (h : ns.all isStrV = true) :
    isStrListV (.list (ns ++ l.map .str)) = true := by
  have hl : (l.map Val.str).all isStrV = true := by
    induction l with
    | nil => rfl
    | cons x xs ih => simp [isStrV]
  simp [isStrListV, List.all_append, h, hl]

theorem validatedNotes_ok (d : List (List Char × Val)) :
    isStrListV (validatedNotes d) = true := by
  unfold validatedNotes
  rcases hn : alookup d (str "notes") with _ | n
  · rfl
  · change isStrListV (if isStrListV n = true then n else Val.list []) = true
    cases hl : isStrListV n
    · rw [if_neg (by decide)]
      rfl
    · rw [if_pos rfl]
      exact hl

theorem validatedRisk_ok (d : List (List Char × Val)) :
    bandStrOk (validatedRisk d) = true := by
  unfold validatedRisk
  rcases hr : alookup d (str "risk") with _ | rv
  · decide
  · cases rv with
    | str r =>
      change bandStrOk (if [str "low", str "moderate", str "high"].contains r = true
        then Val.str r else Val.str (str "moderate")) = true
      cases hc : [str "low", str "moderate", str "high"].contains r
      · rw [if_neg (by decide)]
        decide
      · rw [if_pos rfl]
        exact hc
    | null => rfl
    | bool b => rfl
    | int n => rfl
    | list xs => rfl
    | dict d2 => rfl

/-- Shape of a plan dict whose five entries satisfy the per-key checks. -/
theorem planShapeOk_dict5 (m a e no rk : Val)
    (hm : isStrListV m = true) (ha : isStrListV a = true) (he : isStrListV e = true)
    (hn : isStrListV no = true) (hr : bandStrOk rk = true) :
    planShapeOk (.dict [(str "risk", rk), (str "morning", m), (str "afternoon", a),
      (str "evening", e), (str "notes", no)]) = true := by
  have ee : planShapeOk (.dict [(str "risk", rk), (str "morning", m), (str "afternoon", a),
      (str "evening", e), (str "notes", no)]) =
      (isStrListV m && isStrListV a && isStrListV e && isStrListV no && bandStrOk rk) := rfl
  rw [ee, hm, ha, he, hn, hr]
  rfl

/-- Everything `_validate_plan` accepts is structurally valid. -/
theorem validate_shape {obj v : Val} (h : _validate_plan obj = some v) :
    planShapeOk v = true := by
  cases obj with
  | null => simp [_validate_plan] at h
  | bool b => simp [_validate_plan] at h
  | int n => simp [_validate_plan] at h
  | str s => simp [_validate_plan] at h
  | list xs => simp [_validate_plan] at h
  | dict d =>
    rcases hm : alookup d (str "morning") with _ | m
    · simp [_validate_plan, hm] at h
    rcases ha : alookup d (str "afternoon") with _ | a
    · simp [_validate_plan, hm, ha] at h
    rcases he : alookup d (str "evening") with _ | e
    · simp [_validate_plan, hm, ha, he] at h
    cases hm2 : isStrListV m with
    | false => simp [_validate_plan, hm, ha, he, hm2] at h
    | true =>
      cases ha2 : isStrListV a with
      | false => simp [_validate_plan, hm, ha, he, hm2, ha2] at h
      | true =>
        cases he2 : isStrListV e with
        | false => simp [_validate_plan, hm, ha, he, hm2, ha2, he2] at h
        | true =>
          simp only [_validate_plan, hm, ha, he, hm2, ha2, he2, Bool.and_self,
            Bool.and_true, Bool.true_and, if_true, Option.some.injEq] at h
          subst h
          exact planShapeOk_dict5 _ _ _ _ _ hm2 ha2 he2
            (validatedNotes_ok d) (validatedRisk_ok d)

/-- Note enrichment preserves the structural contract. -/
theorem enrich_shape {slots : Slots} {score : Option Int} {v p : Val}
    (hv : planShapeOk v = true) (h : enrichValid slots score v = .ok p) :
    planShapeOk p = true := by
  cases v with
  | null => simp [enrichValid] at h
  | bool b => simp [enrichValid] at h
  | int n => simp [enrichValid] at h
  | str s => simp [enrichValid] at h
  | list xs => simp [enrichValid] at h
  | dict d =>
    rcases hn : alookup d (str "notes") with _ | n
    · simp [enrichValid, hn] at h
    · cases n with
      | null => simp [enrichValid, hn] at h
      | bool b => simp [enrichValid, hn] at h
      | int m => simp [enrichValid, hn] at h
      | str s => simp [enrichValid, hn] at h
      | dict dd => simp [enrichValid, hn] at h
      | list ns =>
        simp only [planShapeOk, Bool.and_eq_true] at hv
        obtain ⟨⟨⟨⟨hvm, hva⟩, hve⟩, hvn⟩, hvr⟩ := hv
        simp only [strListAt, dget, hn, isStrListV] at hvn
        simp only [strListAt, dget] at hvm hva hve
        simp only [enrichValid, hn, Except.ok.injEq] at h
        subst h
        split
        · -- risk entry already a valid band: only notes was updated
          next hC =>
          simp only [planShapeOk, strListAt, dget, riskBandOk, Bool.and_eq_true]
          refine ⟨⟨⟨⟨?_, ?_⟩, ?_⟩, ?_⟩, ?_⟩
          · rw [alookup_aset_ne _ _ _ _ (by decide)]
            exact hvm
          · rw [alookup_aset_ne _ _ _ _ (by decide)]
            exact hva
          · rw [alookup_aset_ne _ _ _ _ (by decide)]
            exact hve
          · rw [alookup_aset_self]
            exact isStrListV_append_map_str ns _ hvn
          · exact hC
        · -- risk entry was re-asserted to the score-derived band
          next hC =>
          simp only [planShapeOk, strListAt, dget, riskBandOk, Bool.and_eq_true]
          refine ⟨⟨⟨⟨?_, ?_⟩, ?_⟩, ?_⟩, ?_⟩
          · rw [alookup_aset_ne _ _ _ _ (by decide), alookup_aset_ne _ _ _ _ (by decide)]
            exact hvm
          · rw [alookup_aset_ne _ _ _ _ (by decide), alookup_aset_ne _ _ _ _ (by decide)]
            exact hva
          · rw [alookup_aset_ne _ _ _ _ (by decide), alookup_aset_ne _ _ _ _ (by decide)]
            exact hve
          · rw [alookup_aset_ne _ _ _ _ (by decide), alookup_aset_self]
            exact isStrListV_append_map_str ns _ hvn
          · rw [alookup_aset_self]
            exact risk_from_score_mem score

-- ---------------------------------------------------------------------------
-- Claims C3, C7, C9 (routine planner)
-- ---------------------------------------------------------------------------

/-- C3: for every slots mapping, frailty score, seed, and suggester
behaviour — including a suggester that throws, returns `None`, or returns
structurally unrelated JSON — `generate_daily_plan` returns a plan whose
`morning`, `afternoon`, `evening` and `notes` entries are lists of strings
and whose `risk` is one of low/moderate/high.  The embedding is total and
every raising operation is explicit (`Except`) and absorbed internally, so
the function never raises. -/
theorem generate_daily_plan_shape (slots : Slots) (score : Option Int)
    (sugg : Option SuggFn) (seed : Option Int) (day : Int) :
    planShapeOk (generate_daily_plan slots score sugg seed day) = true := by
  cases sugg with
  | none => exact planShapeOk_fallback slots score seed day
  | some f =>
    cases hf : f slots score with
    | error e =>
      simp only [generate_daily_plan, hf]
      exact planShapeOk_fallback slots score seed day
    | ok proposed =>
      cases proposed with
      | dict pd =>
        rcases hvp : _validate_plan (Val.dict pd) with _ | valid
        · simp only [generate_daily_plan, hf, hvp]
          exact planShapeOk_fallback slots score seed day
        · cases hev : enrichValid slots score valid with
          | ok p2 =>
            simp only [generate_daily_plan, hf, hvp, hev]
            exact enrich_shape (validate_shape hvp) hev
          | error e2 =>
            simp only [generate_daily_plan, hf, hvp, hev]
            exact planShapeOk_fallback slots score seed day
      | null =>
        simp only [generate_daily_plan, hf]
        exact planShapeOk_fallback slots score seed day
      | bool b =>
        simp only [generate_daily_plan, hf]
        exact planShapeOk_fallback slots score seed day
      | int n =>
        simp only [generate_daily_plan, hf]
        exact planShapeOk_fallback slots score seed day
      | str s =>
        simp only [generate_daily_plan, hf]
        exact planShapeOk_fallback slots score seed day
      | list xs =>
        simp only [generate_daily_plan, hf]
        exact planShapeOk_fallback slots score seed day

/-- C7: with a supplied seed and no suggester, `generate_daily_plan` is a
pure function of `(slots, score, seed)`: the clock input `day` is not
consulted, so repeated calls with identical inputs produce identical plan
content; and the fallback never fails and always produces a structurally
valid plan for any input combination. -/
theorem generate_daily_plan_seeded_deterministic :
    (∀ (slots : Slots) (score : Option Int) (seed : Int) (day1 day2 : Int),
      generate_daily_plan slots score none (some seed) day1 =
        generate_daily_plan slots score none (some seed) day2)
    ∧ (∀ (slots : Slots) (score : Option Int) (seed : Option Int) (day : Int),
      planShapeOk (_fallback_plan slots score seed day) = true) :=
  ⟨fun _ _ _ _ _ => rfl,
   fun slots score seed day => planShapeOk_fallback slots score seed day⟩

/-- C9: the fallback's walking numbers.  With `energy` and `steps` read
from the slots exactly as the source does, the base increment is 300 for
energy ≤ 3, 1500 for energy ≥ 8, else 800; when the risk band is high the
used increment is exactly 0.6 times the base (the float product is exact at
all three base values); `walkTarget = clamp(steps + increment, 1000,
8000)`; `stepsToGo = max(0, walkTarget - steps)`; and the fallback's
morning walk line (variant 0 shown) is built from that `stepsToGo`. -/
theorem fallback_walk_target_formula (slots : Slots) (score : Option Int) (day : Int) :
    (let energy := _as_int (alookup slots (str "energy")) 5 (some 0) (some 10)
     let steps := _as_int (alookup slots (str "steps")) 0 (some 0) (some 100000)
     let risk := _risk_from_score score
     let base := _energy_bump energy
     let inc := _risk_scaled_bump risk base
     (base = if energy ≤ 3 then 300 else if 8 ≤ energy then 1500 else 800)
     ∧ (10 * inc = if risk = str "high" then 6 * base else 10 * base)
     ∧ (_walk_target steps inc = min 8000 (max 1000 (steps + inc)))
     ∧ (_steps_to_go steps (_walk_target steps inc) =
         max 0 (_walk_target steps inc - steps))
     ∧ dget (_fallback_plan slots score (some 0) day) (str "morning") =
         some (.list [.str (str "Box breathing 4-4-4-4 (5-7 min)"),
                      .str (str "Gentle walk: target ~" ++
                            pyIntStr (_steps_to_go steps (_walk_target steps inc)) ++
                            str " steps"),
                      .str (str "Drink a glass of water (250 ml)")])) := by
  refine ⟨?_, ?_, ?_, ?_, ?_⟩
  · rfl
  · unfold _risk_scaled_bump
    split_ifs with h1
    · unfold _energy_bump
      split_ifs <;> decide
    · rfl
  · rfl
  · rfl
  · rfl

-- ---------------------------------------------------------------------------
-- Regex-like matchers for app/graph/nodes.py
-- ---------------------------------------------------------------------------

/-- Consume a literal, returning the rest of the input. -/
def eatLit : List Char → List Char → Option (List Char)
  | [], s => some s
  | _ :: _, [] => none
  | c :: cs, x :: xs => if c = x then eatLit cs xs else none

/-- Consume `\s*`. -/
def eatWs (s : List Char) : List Char := s.dropWhile isSpaceB

/-- Consume one optional character from a class (e.g. `[ -]?`, `s?`).
Greedy consumption is equivalent to backtracking for every use in this
file: the optional character never also begins the required continuation. -/
def eatOpt (cs : List Char) (s : List Char) : List Char :=
  match s with
  | [] => []
  | x :: xs => if cs.contains x then xs else x :: xs

/-- A trailing word boundary `\b` after a word character. -/
def bdryAfter (s : List Char) : Bool :=
  match s with
  | [] => true
  | c :: _ => !wordCharB c

/-- `check[ -]?in\b`, the shared tail of the check-in alternatives. -/
def checkinTail (s : List Char) : Bool :=
  match eatLit (str "check") s with
  | none => false
  | some r =>
    match eatLit (str "in") (eatOpt [' ', '-'] r) with
    | none => false
    | some r2 => bdryAfter r2

/-- One alternative of `CHECKIN_RX` matching at this position:
`daily\s*check[ -]?in | check[ -]?in | checkup | check-up |
todays?\s*check[ -]?in`, each followed by `\b`. -/
def checkinAt (s : List Char) : Bool :=
  (match eatLit (str "daily") s with
   | some r => checkinTail (eatWs r)
   | none => false)
  || checkinTail s
  || wordAt (str "checkup") s
  || wordAt (str "check-up") s
  || (match eatLit (str "today") s with
      | some r => checkinTail (eatWs (eatOpt ['s'] r))
      | none => false)

/-- `CHECKIN_RX.search` (the text is already lowercased by callers). -/
def checkinSearch (s : List Char) : Bool := scanBdry checkinAt false s

/-- One alternative of `MOTIVATE_RX` at this position:
`motivat(e|ion) | pep\s*talk | encourage | boost | inspire`, then `\b`. -/
def motivateAt (s : List Char) : Bool :=
  (match eatLit (str "motivat") s with
   | some r =>
     (match eatLit (str "e") r with
      | some r2 => bdryAfter r2
      | none => false)
     || (match eatLit (str "ion") r with
         | some r2 => bdryAfter r2
         | none => false)
   | none => false)
  || (match eatLit (str "pep") s with
      | some r =>
        match eatLit (str "talk") (eatWs r) with
        | some r2 => bdryAfter r2
        | none => false
      | none => false)
  || wordAt (str "encourage") s
  || wordAt (str "boost") s
  || wordAt (str "inspire") s

/-- `MOTIVATE_RX.search`. -/
def motivateSearch (s : List Char) : Bool := scanBdry motivateAt false s

/-- `re.search(r"\b(restart|start over|redo)\b", ...)`. -/
def restartSearch (s : List Char) : Bool :=
  scanBdry
    (fun u => wordAt (str "restart") u || wordAt (str "start over") u || wordAt (str "redo") u)
    false s

/-- Drop a run of `d` characters. -/
def dropDs : List Char → List Char
  | [] => []
  | c :: r => if c = 'd' then dropDs r else c :: r

/-- `tired+d*\b` at this position: `tire`, then at least one `d`, with a
word boundary after the maximal `d` run (backtracking cannot stop inside
the run because the next character would be the word character `d`). -/
def tiredAt (s : List Char) : Bool :=
  lstartsWith (str "tire") s &&
    (match s.drop 4 with
     | c :: r => c = 'd' && (match dropDs r with
       | [] => true
       | c2 :: _ => !wordCharB c2)
     | [] => false)

/-- `re.search(r"\btired+d*\b", ...)`. -/
def tiredSearch (s : List Char) : Bool := scanBdry tiredAt false s

/-- `ok(?:ay)?\b` at this position. -/
def okAt (s : List Char) : Bool :=
  match eatLit (str "ok") s with
  | some r =>
    bdryAfter r ||
      (match eatLit (str "ay") r with
       | some r2 => bdryAfter r2
       | none => false)
  | none => false

/-- `re.search(r"\bok(?:ay)?\b", ...)`. -/
def okSearch (s : List Char) : Bool := scanBdry okAt false s

/-- `_extract_mood_from_text`: ordered word families over the lowercased
text; tiredness first, then low-mood, then okay, then positive. -/
def _extract_mood_from_text (text : List Char) : Option (List Char) :=
  let low := lowerL text
  if tiredSearch low then some (str "tired")
  else if [str "fatigued", str "exhausted", str "weary", str "sleepy"].any
      (fun w => wholeWord w low) then some (str "tired")
  else if [str "sad", str "down", str "low", str "depressed", str "blue",
           str "stressed", str "anxious", str "worried"].any
      (fun w => wholeWord w low) then some (str "low")
  else if okSearch low || wholeWord (str "fine") low || wholeWord (str "neutral") low then
    some (str "okay")
  else if [str "good", str "great", str "happy", str "well", str "better"].any
      (fun w => wholeWord w low) then some (str "good")
  else none

/-- Leftmost boundary-anchored search returning a captured value. -/
def scanBdryOpt {α : Type} (p : List Char → Option α) : Bool → List Char → Option α
  | _, [] => none
  | prevW, c :: rest =>
    match (if !prevW then p (c :: rest) else none) with
    | some v => some v
    | none => scanBdryOpt p (wordCharB c) rest

/-- `mood\s*[:=]?\s*([a-zA-Z]+)` at this position (on lowercased text; the
source lowercases the captured group, which commutes with scanning the
lowercased text). -/
def moodAt (s : List Char) : Option (List Char) :=
  match eatLit (str "mood") s with
  | none => none
  | some r =>
    let r2 := eatWs (eatOpt [':', '='] (eatWs r))
    let letters := r2.takeWhile isAsciiAlphaB
    if letters.isEmpty then none else some letters

/-- `energy\s*[:=]?\s*(\d{1,2})` at this position. -/
def energyAt (s : List Char) : Option Int :=
  match eatLit (str "energy") s with
  | none => none
  | some r =>
    let r2 := eatWs (eatOpt [':', '='] (eatWs r))
    let ds := (r2.takeWhile isDigitB).take 2
    if ds.isEmpty then none else some (digitsToInt ds)

/-- `steps?\s*[:=]?\s*(\d{2,6})\b` at this position: the digit group can
only match the full digit run (shorter backtracks leave a digit after the
boundary), so it succeeds exactly when the run length is 2..6 and a word
boundary follows. -/
def stepsKeyAt (s : List Char) : Option Int :=
  match eatLit (str "step") s with
  | none => none
  | some r =>
    let r2 := eatWs (eatOpt [':', '='] (eatWs (eatOpt ['s'] r)))
    let ds := r2.takeWhile isDigitB
    if 2 ≤ ds.length && ds.length ≤ 6 && bdryAfter (r2.drop ds.length) then
      some (digitsToInt ds)
    else none

/-- `(\d{2,6})\s+steps?\b` at this position: the digit group must be the
full run (a shorter match leaves a digit where `\s+` is required). -/
def stepsNumAt (s : List Char) : Option Int :=
  let ds := s.takeWhile isDigitB
  if 2 ≤ ds.length && ds.length ≤ 6 then
    match s.drop ds.length with
    | c :: r2 =>
      if isSpaceB c then
        match eatLit (str "step") (eatWs r2) with
        | some r3 => if bdryAfter (eatOpt ['s'] r3) then some (digitsToInt ds) else none
        | none => none
      else none
    | [] => none
  else none

/-- `_extract_slot_kv`: deterministic extraction of mood/energy/steps.
The case-insensitive searches are modelled by scanning the lowercased
text. -/
def _extract_slot_kv (text : List Char) : List (List Char × Val) :=
  let low := lowerL text
  let out : List (List Char × Val) := []
  let out :=
    match scanBdryOpt moodAt false low with
    | some m => aset out (str "mood") (.str m)
    | none =>
      match _extract_mood_from_text text with
      | some g => aset out (str "mood") (.str g)
      | none => out
  let out :=
    match scanBdryOpt energyAt false low with
    | some v => aset out (str "energy") (.int (max 0 (min 10 v)))
    | none => out
  match scanBdryOpt stepsKeyAt false low with
  | some v => if 0 ≤ v then aset out (str "steps") (.int v) else out
  | none =>
    match scanBdryOpt stepsNumAt false low with
    | some v => if 0 ≤ v then aset out (str "steps") (.int v) else out
    | none => out

/-- Leftmost `(-?\d{1,6})` match of `_get_int` after comma removal. -/
def getIntScan : List Char → Option Int
  | [] => none
  | c :: r =>
    if c = '-' then
      match r.takeWhile isDigitB with
      | [] => getIntScan r
      | ds => some (-(digitsToInt (ds.take 6)))
    else if isDigitB c then
      some (digitsToInt (((c :: r).takeWhile isDigitB).take 6))
    else getIntScan r

/-- `_get_int`: `None` for empty text, else the first signed integer token
of the comma-stripped text. -/
def _get_int (text : List Char) : Option Int :=
  if text.isEmpty then none
  else getIntScan (text.filter (fun c => !(c = ',')))

/-- `re.fullmatch(r"\s*\d{1,6}\s*", s)`. -/
def fullmatchWsDigits (s : List Char) : Bool :=
  let r1 := s.dropWhile isSpaceB
  let ds := r1.takeWhile isDigitB
  1 ≤ ds.length && ds.length ≤ 6 && ((r1.drop ds.length).dropWhile isSpaceB).isEmpty

/-- `re.fullmatch(r"\d{1,6}", s)`. -/
def fullmatchDigits16 (s : List Char) : Bool :=
  !s.isEmpty && s.all isDigitB && s.length ≤ 6

/-- `str.split()` with no separator: split on whitespace runs, dropping
empty tokens (auxiliary accumulator holds the current token reversed). -/
def splitWsAux : List Char → List Char → List (List Char)
  | [], acc => if acc.isEmpty then [] else [acc.reverse]
  | c :: r, acc =>
    if isSpaceB c then
      if acc.isEmpty then splitWsAux r [] else acc.reverse :: splitWsAux r []
    else splitWsAux r (c :: acc)

/-- Python `s.split()`. -/
def splitWs (s : List Char) : List (List Char) := splitWsAux s []

-- ---------------------------------------------------------------------------
-- livewell-e/backend/app/graph/nodes.py: _parse_yes_no
-- ---------------------------------------------------------------------------

/-- `re.search(r"\by(es)?\b", t)`: backtracking over the optional group
makes this a whole-word match of `yes` or `y`. -/
def rxYesSearch (t : List Char) : Bool :=
  scanBdry (fun u => wordAt (str "yes") u || wordAt (str "y") u) false t

/-- `re.search(r"\bn(o)?\b", t)`. -/
def rxNoSearch (t : List Char) : Bool :=
  scanBdry (fun u => wordAt (str "no") u || wordAt (str "n") u) false t

/-- `_parse_yes_no` of the livewell-e variant: exact-token sets first, then
the whole-word regex fallbacks, else unknown with a re-prompt message. -/
def _parse_yes_no (text : List Char) : Option Bool × List Char :=
  let t := stripL (lowerL text)
  if [str "y", str "yes", str "yeah", str "yep", str "sure", str "correct"].contains t then
    (some true, [])
  else if [str "n", str "no", str "nope", str "nah"].contains t then (some false, [])
  else if rxYesSearch t then (some true, [])
  else if rxNoSearch t then (some false, [])
  else (none, str "Please answer yes or no.")

/-- The spec's description of `parseYesNo`: a case-insensitive exact-token
match against the fixed yes-set and no-set; if no exact match, a
whole-word match for bare `yes`/`y` and then `no`/`n`; unknown when no
pattern matches. -/
def parseYesNoSpec (text : List Char) : Option Bool :=
  let t := stripL (lowerL text)
  if [str "y", str "yes", str "yeah", str "yep", str "sure", str "correct"].contains t then
    some true
  else if [str "n", str "no", str "nope", str "nah"].contains t then some false
  else if wholeWord (str "yes") t || wholeWord (str "y") t then some true
  else if wholeWord (str "no") t || wholeWord (str "n") t then some false
  else none

/-- Distributing a boundary scan over a disjunction of position matchers. -/
theorem scanBdry_or (p q : List Char → Bool) (b : Bool) (s : List Char) :
    scanBdry (fun u => p u || q u) b s = (scanBdry p b s || scanBdry q b s) := by
  induction s generalizing b with
  | nil => rfl
  | cons c rest ih =>
    simp only [scanBdry, ih]
    cases b <;> cases hp : p (c :: rest) <;> cases hq : q (c :: rest) <;>
      simp [Bool.or_assoc, Bool.or_left_comm, Bool.or_comm]

-- ---------------------------------------------------------------------------
-- Claim C8 (yes/no parsing)
-- ---------------------------------------------------------------------------

/-- C8: for every input text, `_parse_yes_no` returns exactly the result
described by the spec — a case-insensitive exact-token match against the
fixed yes/no sets (the yes-set excludes `ok`/`okay`, which yield unknown),
then a whole-word match for bare `y`/`n`/`yes`/`no`, and unknown when
nothing matches. -/
theorem parse_yes_no_matches_spec :
    (∀ t : List Char, (_parse_yes_no t).1 = parseYesNoSpec t)
    ∧ (_parse_yes_no (str "ok")).1 = none
    ∧ (_parse_yes_no (str "okay")).1 = none := by
  refine ⟨?_, by decide, by decide⟩
  intro t
  unfold _parse_yes_no parseYesNoSpec rxYesSearch rxNoSearch wholeWord
  simp only [scanBdry_or]
  split_ifs <;> rfl

-- ---------------------------------------------------------------------------
-- app/graph/state.py and app/graph/nodes.py: session state and nodes
-- ---------------------------------------------------------------------------

/-- One transcript entry `{role, content}`.  The `ts` timestamp field is
not modelled: no embedded code reads it. -/
structure Msg where
  role : List Char
  content : List Char

/-- The mutable session state of `app/graph/state.py`.  Every field is
optional because a Python dict key can be absent; a stored `None` and an
absent key are identified (the code only reads them through `.get`). -/
structure SessionState where
  messages : List Msg := []
  reply : Option (List Char) := none
  slots : Option (List (List Char × Val)) := none
  required_slots : Option (List (List Char)) := none
  awaiting : Option (List Char) := none
  prisma_answers : Option (List (List Char × Val)) := none
  prisma_index : Option Int := none
  frailty_score : Option Int := none
  plan : Option Val := none
  plan_seed : Option Int := none
  session_id : Option (List Char) := none
  label : Option (List Char) := none

/-- `DEFAULT_REQUIRED_SLOTS`. -/
def DEFAULT_REQUIRED : List (List Char) := [str "mood", str "energy", str "steps"]

/-- `new_session()`. -/
def new_session : SessionState :=
  { messages := [], reply := none, slots := some [],
    required_slots := some DEFAULT_REQUIRED, awaiting := none,
    prisma_answers := some [], prisma_index := some 0, frailty_score := none,
    plan := some (.dict []), plan_seed := none, session_id := none, label := none }

/-- The environment a turn runs in: the sha256-derived per-session/day seed
of `_stable_seed`, the parsed output of the guarded LLM call used by
`plan_routine` (`{}` on any failure), and the `%Y%j` day number. -/
structure Env where
  stableSeed : Option (List Char) → Int
  llmPlan : List (List Char × Val) → Option Int → Val
  day : Int

/-- The last user message content, `""` when the transcript is empty. -/
def lastContent (st : SessionState) : List Char :=
  match st.messages.getLast? with
  | some m => m.content
  | none => []

/-- The `YES` token set (deliberately excluding `ok`/`okay`). -/
def YESl : List (List Char) :=
  [str "y", str "yes", str "yeah", str "yep", str "true", str "sure",
   str "go", str "start", str "plan"]

/-- The `NO` token set. -/
def NOl : List (List Char) :=
  [str "n", str "no", str "nope", str "false", str "later", str "not now", str "skip"]

/-- `_yn`: strict token-set yes/no parsing of `(value or "").strip().lower()`. -/
def _yn (value : List Char) : Option Bool :=
  let v := lowerL (stripL value)
  if YESl.contains v then some true
  else if NOl.contains v then some false
  else none

/-- The routing decision of `classify_intent` as a function of the last
message text and the `awaiting` marker (`None` reads as `""`). -/
def classifyLabel (txt : List Char) (awaiting : Option (List Char)) : List Char :=
  let low := lowerL txt
  let aw := awaiting.getD []
  if aw = str "confirm_checkin" then str "handle_checkin_confirmation"
  else if aw = str "prisma" then str "continue_prisma"
  else if aw = str "post_checkin" then str "handle_post_checkin"
  else if aw = str "after_plan" then str "handle_after_plan"
  else if lstartsWith (str "slot:") aw then str "continue_slot"
  else if checkinSearch low then str "start_prisma"
  else if motivateSearch low ||
      [str "motivation", str "motivate", str "pep", str "pep talk"].contains (stripL low) then
    str "motivate"
  else if containsSub (str "hi") low || containsSub (str "hello") low ||
      containsSub (str "hey") low ||
          [([] : List Char), str "start", str "begin"].contains (stripL low) then
    str "greet_and_offer_checkin"
  else if containsSub (str "mood") low || containsSub (str "energy") low ||
      containsSub (str "steps") low || fullmatchWsDigits low ||
      (_extract_mood_from_text txt).isSome then
    str "check_slots"
  else str "maybe_compute_frailty"

/-- `classify_intent`: store the routing label. -/
def classify_intent (st : SessionState) : SessionState :=
  { st with label := some (classifyLabel (lastContent st) st.awaiting) }

/-- `greet_and_offer_checkin`. -/
def greet_and_offer_checkin (st : SessionState) : SessionState :=
  { st with
    awaiting := some (str "confirm_checkin"),
    reply := some (str "Hi! Want to do your daily check-in now? It is 7 quick yes/no questions and takes about a minute.") }

/-- Question text at a PRISMA index (used at the in-bounds indices the
wizard produces). -/
def prismaTextAt (i : Int) : List Char :=
  match PRISMA_QUESTIONS.get? i.toNat with
  | some q => q.text
  | none => []

/-- `start_prisma`. -/
def start_prisma (st : SessionState) : SessionState :=
  { st with
    prisma_answers := some [], prisma_index := some 0,
    awaiting := some (str "prisma"),
    reply := some (str "Great - daily check-in Q1: " ++ prismaTextAt 0) }

/-- `handle_checkin_confirmation`. -/
def handle_checkin_confirmation (st : SessionState) : SessionState :=
  let user := lastContent st
  match _yn user with
  | some true => start_prisma st
  | some false =>
    { st with
      awaiting := none,
      reply := some (str "No worries. You can say \"daily check-in\" anytime. If you like, tell me your mood, energy (0-10), or steps so far.") }
  | none =>
    { st with
      awaiting := some (str "confirm_checkin"),
      reply := some (str "Would you like to start your daily check-in now? (yes/no)") }

/-- `dict.update` with the extracted pairs in insertion order. -/
def updateDict (d : List (List Char × Val)) (kvs : List (List Char × Val)) :
    List (List Char × Val) :=
  kvs.foldl (fun acc kv => aset acc kv.1 kv.2) d

/-- `extract_light_entities`. -/
def extract_light_entities (st : SessionState) : SessionState :=
  let user := lastContent st
  { st with slots := some (updateDict (st.slots.getD []) (_extract_slot_kv user)) }

/-- The slot-question dict literal of `ensure_slots`; an unknown slot name
raises `KeyError` exactly as the Python dict subscript would. -/
def slotQuestionMap (k : List Char) : Except PyErr (List Char) :=
  if k = str "mood" then .ok (str "How\x27s your mood today (e.g., good/okay/low)?")
  else if k = str "energy" then .ok (str "What\x27s your energy level 0-10?")
  else if k = str "steps" then .ok (str "How many steps have you taken so far today?")
  else .error .keyError

/-- The `for k in required` loop of `ensure_slots`. -/
def ensureLoop (st : SessionState) (slots : List (List Char × Val)) :
    List (List Char) → Except PyErr SessionState
  | [] => .ok { st with awaiting := none }
  | k :: rest =>
    if (alookup slots k).isSome then ensureLoop st slots rest
    else
      match slotQuestionMap k with
      | .error e => .error e
      | .ok q => .ok { st with awaiting := some (str "slot:" ++ k), reply := some q }

/-- `ensure_slots`. -/
def ensure_slots (st : SessionState) : Except PyErr SessionState :=
  let required := st.required_slots.getD DEFAULT_REQUIRED
  let slots := st.slots.getD []
  ensureLoop { st with slots := some slots } slots required

/-- The reply dict literal of `collect_slot_answer`. -/
def collectReplyMap (k : List Char) : Except PyErr (List Char) :=
  if k = str "mood" then .ok (str "Got it. What\x27s your mood today?")
  else if k = str "energy" then .ok (str "Thanks. What\x27s your energy level 0-10?")
  else if k = str "steps" then .ok (str "Thanks. How many steps have you taken so far today?")
  else .error .keyError

/-- The re-ask loop of `collect_slot_answer`. -/
def collectLoop (st : SessionState) (slots : List (List Char × Val)) :
    List (List Char) → Except PyErr SessionState
  | [] => .ok { st with awaiting := none }
  | k :: rest =>
    if (alookup slots k).isSome then collectLoop st slots rest
    else
      match collectReplyMap k with
      | .error e => .error e
      | .ok q => .ok { st with awaiting := some (str "slot:" ++ k), reply := some q }

/-- `awaiting.replace("slot:", "")`: remove every occurrence of the
marker, scanning left to right. -/
def stripSlotMarks : List Char → List Char
  | 's' :: 'l' :: 'o' :: 't' :: ':' :: r => stripSlotMarks r
  | c :: r => c :: stripSlotMarks r
  | [] => []

/-- `collect_slot_answer`: record a parseable answer for the awaited slot
(an unparseable answer is silently ignored), then re-ask the first missing
slot.  The mood branch indexes `user.strip().split()[0]`, which raises
`IndexError` on whitespace-only input. -/
def collect_slot_answer (st : SessionState) : Except PyErr SessionState :=
  let user := lastContent st
  let awaiting := st.awaiting.getD []
  let slots0 := st.slots.getD []
  let required := st.required_slots.getD DEFAULT_REQUIRED
  let slot_name := if lstartsWith (str "slot:") awaiting then stripSlotMarks awaiting else []
  match
    (if slot_name = str "mood" then
      match _extract_mood_from_text user with
      | some m => Except.ok (aset slots0 (str "mood") (.str m))
      | none =>
        match splitWs (stripL user) with
        | [] => Except.error PyErr.indexError
        | t :: _ => Except.ok (aset slots0 (str "mood") (.str (lowerL t)))
    else if slot_name = str "energy" then
      match _get_int user with
      | some v => Except.ok (aset slots0 (str "energy") (.int (max 0 (min 10 v))))
      | none => Except.ok slots0
    else if slot_name = str "steps" then
      match _get_int user with
      | some v => Except.ok (if 0 ≤ v then aset slots0 (str "steps") (.int v) else slots0)
      | none => Except.ok slots0
    else Except.ok slots0)
  with
  | .error e => .error e
  | .ok slots1 => collectLoop { st with slots := some slots1 } slots1 required

/-- `check_slots` (also called inline from the post-checkin and after-plan
handlers): extract entities, then ask for the first missing slot. -/
def check_slots (st : SessionState) : Except PyErr SessionState :=
  ensure_slots (extract_light_entities st)

/-- Python list subscript `l[i]` including single negative-index wrap. -/
def pyIdx {α : Type} (l : List α) (i : Int) : Except PyErr α :=
  if i < 0 then
    if i + l.length < 0 then .error .indexError
    else
      match l.get? (i + l.length).toNat with
      | some x => .ok x
      | none => .error .indexError
  else
    match l.get? i.toNat with
    | some x => .ok x
    | none => .error .indexError

/-- `str(score)` where the score may be `None`. -/
def optIntRepr : Option Int → List Char
  | none => str "None"
  | some n => pyIntStr n

/-- `continue_prisma`: record a parseable yes/no answer and advance, re-ask
on an unparseable one, and on completion compute the score once and move to
`post_checkin`. -/
def continue_prisma (st : SessionState) : Except PyErr SessionState :=
  let user := lastContent st
  let i0 : Int := st.prisma_index.getD 0
  let ans0 := st.prisma_answers.getD []
  let st1 := { st with prisma_answers := some ans0 }
  match
    (if i0 < (PRISMA_QUESTIONS.length : Int) then
      match pyIdx PRISMA_QUESTIONS i0 with
      | .error e => Except.error e
      | .ok q =>
        match _yn user with
        | some b =>
          Except.ok ({ st1 with
                       prisma_answers := some (aset ans0 q.key (Val.bool b)),
                       prisma_index := some (i0 + 1) },
                     aset ans0 q.key (Val.bool b), i0 + 1)
        | none => Except.ok (st1, ans0, i0)
    else Except.ok (st1, ans0, i0))
  with
  | .error e => .error e
  | .ok (st2, ans, i) =>
    if i < (PRISMA_QUESTIONS.length : Int) then
      match pyIdx PRISMA_QUESTIONS i with
      | .error e => .error e
      | .ok q =>
        .ok { st2 with
              awaiting := some (str "prisma"),
              reply := some (str "Q" ++ pyIntStr (i + 1) ++ str ": " ++ q.text) }
    else
      .ok { st2 with
            awaiting := some (str "post_checkin"),
            frailty_score := prisma7_score ans,
            reply := some (str "All done - your daily check-in score is " ++
              optIntRepr (prisma7_score ans) ++
              str ". Would you like me to draft a quick plan for today, or would you prefer to log mood, energy, or steps first?") }

/-- `"\n".join(lines)`. -/
def joinNL : List (List Char) → List Char
  | [] => []
  | [x] => x
  | x :: rest => x ++ '\n' :: joinNL rest

/-- `motivate`: a deterministic pep message with a micro step goal. -/
def motivate (st : SessionState) : Except PyErr SessionState :=
  let slots := st.slots.getD []
  let mood := lowerL (pyStrVal ((alookup slots (str "mood")).getD (.str (str "okay"))))
  match pyIntOfVal (valOr ((alookup slots (str "energy")).getD (.int 5)) (.int 5)) with
  | .error e => .error e
  | .ok energy =>
    match pyIntOfVal (valOr ((alookup slots (str "steps")).getD (.int 0)) (.int 0)) with
    | .error e => .error e
    | .ok steps =>
      let risk :=
        match st.frailty_score with
        | some s => if s ≤ 2 then str "low" else if s ≠ 0 ∧ 5 ≤ s then str "high" else str "moderate"
        | none => str "moderate"
      let bump0 : Int := if energy < 5 then 500 else 1000
      let bump : Int := if risk = str "high" then (if energy < 5 then 300 else 600) else bump0
      let walk_target := min 7000 (max 1000 (steps + bump))
      let to_go := max 0 (walk_target - steps)
      let line1 :=
        if [str "low", str "down", str "tired"].contains mood || energy ≤ 3 then
          str "Small steps count. Two minutes is enough to start."
        else str "You got this. Small wins add up fast."
      .ok { st with reply := some (joinNL
        [line1,
         str "Micro-goal: about " ++ pyIntStr to_go ++ str " steps would meet today\x27s gentle target.",
         str "Tip: stand, roll shoulders, and walk to the kitchen and back. Then decide the next tiny step.",
         str "Hydrate and breathe: 4-4-4-4 for one minute."]) }

/-- `maybe_compute_frailty`: compute once when all 7 answers exist. -/
def maybe_compute_frailty (st : SessionState) : SessionState :=
  if st.frailty_score = none ∧ (st.prisma_answers.getD []).length = 7 then
    { st with frailty_score := prisma7_score (st.prisma_answers.getD []) }
  else st

/-- `plan_routine`: seed from `plan_seed` or the stable per-session/day
hash, then plan with the guarded LLM suggester and enter after-plan mode. -/
def plan_routine (env : Env) (st : SessionState) : SessionState :=
  let seed :=
    match st.plan_seed with
    | some s => s
    | none => env.stableSeed st.session_id
  let plan := generate_daily_plan (st.slots.getD []) st.frailty_score
    (some (fun slots score => Except.ok (env.llmPlan slots score))) (some seed) env.day
  { st with plan := some plan, plan_seed := some seed, awaiting := some (str "after_plan") }

/-- `handle_post_checkin`: restart, log mood, plan, slots, motivation, or
re-prompt with the same menu. -/
def handle_post_checkin (env : Env) (st : SessionState) : Except PyErr SessionState :=
  let user := lastContent st
  let low := stripL (lowerL user)
  if checkinSearch low || restartSearch low then
    .ok (start_prisma { st with awaiting := none })
  else
    match _extract_mood_from_text user with
    | some mood =>
      ensure_slots { st with
        slots := some (aset (st.slots.getD []) (str "mood") (.str mood)),
        awaiting := none }
    | none =>
      if [str "ok", str "okay", str "thanks", str "thank you"].contains low then
        .ok { st with
          awaiting := some (str "post_checkin"),
          reply := some (str "Want me to put together a quick plan now (yes/no), or shall we log mood, energy, or steps?") }
      else if YESl.contains low || containsSub (str "plan") low ||
          containsSub (str "go ahead") low || containsSub (str "make it") low ||
          containsSub (str "draft") low then
        .ok (plan_routine env { st with awaiting := none })
      else if containsSub (str "mood") low || containsSub (str "energy") low ||
          containsSub (str "steps") low || fullmatchDigits16 low then
        check_slots { st with awaiting := none }
      else if motivateSearch low ||
          [str "motivation", str "motivate", str "pep", str "pep talk"].contains low then
        motivate { st with awaiting := some (str "post_checkin") }
      else
        .ok { st with
          awaiting := some (str "post_checkin"),
          reply := some (str "I can draft a quick plan (say yes), or we can log mood, energy (0-10), or steps. What would you like?") }

/-- `handle_after_plan`: restart, log mood, tweaks (easier/harder/swap),
motivation, slots, or re-prompt.  Unlike the other handlers its transcript
read `state.get("messages", [])[-1]` is unguarded. -/
def handle_after_plan (env : Env) (st : SessionState) : Except PyErr SessionState :=
  match st.messages.getLast? with
  | none => .error .indexError
  | some m =>
    let user := m.content
    let txt := lowerL (stripL user)
    if checkinSearch txt || restartSearch txt then
      .ok (start_prisma { st with awaiting := none, reply := none })
    else
      match _extract_mood_from_text user with
      | some mood =>
        ensure_slots { st with
          slots := some (aset (st.slots.getD []) (str "mood") (.str mood)),
          awaiting := none }
      | none =>
        if [str "ok", str "okay", str "thanks", str "thank you"].contains txt then
          .ok { st with
            awaiting := some (str "after_plan"),
            reply := some (str "Want tweaks (say easier/harder/swap), a pep talk (motivate), or log mood/energy/steps?") }
        else if motivateSearch txt ||
            [str "motivation", str "motivate", str "pep", str "pep talk"].contains txt then
          motivate { st with awaiting := some (str "after_plan") }
        else if containsSub (str "easier") txt || containsSub (str "lighter") txt then
          match pyIntOfVal (valOr ((alookup (st.slots.getD []) (str "energy")).getD (.int 5)) (.int 5)) with
          | .error e => .error e
          | .ok energy =>
            .ok (plan_routine env { st with
              slots := some (aset (st.slots.getD []) (str "energy") (.int (max 0 (energy - 2)))),
              reply := none })
        else if containsSub (str "harder") txt || containsSub (str "tougher") txt then
          match pyIntOfVal (valOr ((alookup (st.slots.getD []) (str "energy")).getD (.int 5)) (.int 5)) with
          | .error e => .error e
          | .ok energy =>
            .ok (plan_routine env { st with
              slots := some (aset (st.slots.getD []) (str "energy") (.int (min 10 (energy + 2)))),
              reply := none })
        else if containsSub (str "swap") txt || containsSub (str "different") txt ||
            containsSub (str "variety") txt then
          .ok (plan_routine env { st with
            plan_seed := some (st.plan_seed.getD 0 + 1),
            reply := none })
        else if containsSub (str "mood") txt || containsSub (str "energy") txt ||
            containsSub (str "steps") txt || fullmatchDigits16 txt then
          check_slots { st with awaiting := none }
        else
          .ok { st with
            awaiting := some (str "after_plan"),
            reply := some (str "Say easier/harder/swap, motivate, or log mood/energy/steps.") }

/-- `", ".join(items)` over plan values; raises `TypeError` on a non-string
element exactly as `str.join` does. -/
def pyJoinVals (sep : List Char) : List Val → Except PyErr (List Char)
  | [] => .ok []
  | [v] =>
    match v with
    | .str s => .ok s
    | _ => .error .typeError
  | v :: rest =>
    match v with
    | .str s =>
      match pyJoinVals sep rest with
      | .ok r => .ok (s ++ sep ++ r)
      | .error e => .error e
    | _ => .error .typeError

/-- `_line(key)` of `compose_reply`: join the entry when it is a list, else
the empty string. -/
def composeLine (p : Val) (k : List Char) : Except PyErr (List Char) :=
  match (dget p k).getD (.list []) with
  | .list xs => pyJoinVals (str ", ") xs
  | _ => .ok []

/-- Truthiness of the pending reply (`if state.get("reply")`). -/
def replyTruthyB : Option (List Char) → Bool
  | some r => !r.isEmpty
  | none => false

/-- `compose_reply`: keep an upstream reply, else render the stored plan
with the after-plan follow-up suffix. -/
def compose_reply (st : SessionState) : Except PyErr SessionState := do
  if replyTruthyB st.reply then
    return st
  let p := st.plan.getD (.dict [])
  let mo ← composeLine p (str "morning")
  let af ← composeLine p (str "afternoon")
  let ev ← composeLine p (str "evening")
  let notesPart ← composeLine p (str "notes")
  let suffix :=
    if st.awaiting = some (str "after_plan") then
      str "\n\nWant tweaks (easier/harder/swap), a pep talk (motivate), or log mood/energy/steps?"
    else []
  return { st with reply := some (str "Here is your plan:\n- Morning: " ++ mo ++
    str "\n- Afternoon: " ++ af ++ str "\n- Evening: " ++ ev ++
    str "\nNotes: " ++ notesPart ++ suffix) }

/-- `_after_ensure_router` and the edges out of `ensure_slots`: ask when a
question is outstanding, else compute frailty, plan, and compose. -/
def afterEnsure (env : Env) (st : SessionState) : Except PyErr SessionState :=
  if (match st.awaiting with | some a => !a.isEmpty | none => false) then compose_reply st
  else compose_reply (plan_routine env (maybe_compute_frailty st))

/-- One pass of the compiled graph (`build_graph`): classify, route by
label, run the handler chain, and compose the reply. -/
def runGraph (env : Env) (st0 : SessionState) : Except PyErr SessionState := do
  let st := classify_intent st0
  let lbl := st.label.getD (str "maybe_compute_frailty")
  if lbl = str "handle_checkin_confirmation" then
    compose_reply (handle_checkin_confirmation st)
  else if lbl = str "continue_prisma" then do
    let st1 ← continue_prisma st
    compose_reply st1
  else if lbl = str "handle_post_checkin" then do
    let st1 ← handle_post_checkin env st
    compose_reply st1
  else if lbl = str "handle_after_plan" then do
    let st1 ← handle_after_plan env st
    compose_reply st1
  else if lbl = str "motivate" then do
    let st1 ← motivate st
    compose_reply st1
  else if lbl = str "continue_slot" then do
    let st1 ← collect_slot_answer st
    let st2 ← ensure_slots st1
    afterEnsure env st2
  else if lbl = str "start_prisma" then
    compose_reply (start_prisma st)
  else if lbl = str "check_slots" then do
    let st1 ← ensure_slots (extract_light_entities st)
    afterEnsure env st1
  else if lbl = str "greet_and_offer_checkin" then
    compose_reply (greet_and_offer_checkin st)
  else
    compose_reply (plan_routine env (maybe_compute_frailty st))

/-- `add_user_message`. -/
def add_user_message (st : SessionState) (content : List Char) : SessionState :=
  { st with messages := st.messages ++ [⟨str "user", content⟩] }

/-- `add_assistant_message`: append to the transcript and set the outgoing
reply. -/
def add_assistant_message (st : SessionState) (content : List Char) : SessionState :=
  { st with messages := st.messages ++ [⟨str "assistant", content⟩], reply := some content }

/-- `reset_reply`. -/
def reset_reply (st : SessionState) : SessionState := { st with reply := none }

/-- The `/chat` endpoint body for an already-fetched session state: store
the session id, append the user message, clear the stale reply, run the
graph, and record the (defaulted) reply. -/
def chat (env : Env) (st : SessionState) (session_id message : List Char) :
    Except PyErr SessionState := do
  let st1 := { st with session_id := some session_id }
  let st2 := reset_reply (add_user_message st1 message)
  let st3 ← runGraph env st2
  let reply := if replyTruthyB st3.reply then st3.reply.getD [] else str "Okay."
  return add_assistant_message st3 reply

-- ---------------------------------------------------------------------------
-- Claims C2, C5, C4 (dialogue state machine)
-- ---------------------------------------------------------------------------

/-- C2: for every session state and every incoming message, when
`awaiting` is non-null the classifier stores the label of the handler
corresponding to that awaiting value (`confirm_checkin`, `prisma`,
`post_checkin`, `after_plan`, or `slot:<name>`), before and regardless of
any keyword or regex matching on the message text. -/
theorem classify_awaiting_dispatch :
    ∀ (st : SessionState) (name : List Char),
      (classify_intent { st with awaiting := some (str "confirm_checkin") }).label =
          some (str "handle_checkin_confirmation")
      ∧ (classify_intent { st with awaiting := some (str "prisma") }).label =
          some (str "continue_prisma")
      ∧ (classify_intent { st with awaiting := some (str "post_checkin") }).label =
          some (str "handle_post_checkin")
      ∧ (classify_intent { st with awaiting := some (str "after_plan") }).label =
          some (str "handle_after_plan")
      ∧ (classify_intent { st with awaiting := some (str "slot:" ++ name) }).label =
          some (str "continue_slot") :=
  fun _ _ => ⟨rfl, rfl, rfl, rfl, rfl⟩

/-- C5: in the PRISMA wizard with index `i` in 0..6, a message that does
not parse as yes/no leaves `prisma_index` unchanged, leaves the recorded
`prisma_answers` unchanged (the `setdefault` materializes the dict without
touching its entries), keeps `awaiting = "prisma"`, and re-asks the
question at index `i`. -/
theorem continue_prisma_unparseable (st : SessionState) (i : Int)
    (_haw : st.awaiting = some (str "prisma"))
    (hidx : st.prisma_index = some i) (h0 : 0 ≤ i) (h7 : i < 7)
    (hyn : _yn (lastContent st) = none) :
    continue_prisma st = .ok { st with
      prisma_answers := some (st.prisma_answers.getD []),
      awaiting := some (str "prisma"),
      reply := some (str "Q" ++ pyIntStr (i + 1) ++ str ": " ++ prismaTextAt i) } := by
  have hlen : (PRISMA_QUESTIONS.length : Int) = 7 := by rfl
  have hnat : i.toNat < PRISMA_QUESTIONS.length := by
    have : PRISMA_QUESTIONS.length = 7 := by rfl
    omega
  obtain ⟨q, hq⟩ : ∃ q, PRISMA_QUESTIONS.get? i.toNat = some q :=
    ⟨_, List.get?_eq_get hnat⟩
  have hpy : pyIdx PRISMA_QUESTIONS i = .ok q := by
    unfold pyIdx
    rw [if_neg (by omega), hq]
  have hc : (i < (PRISMA_QUESTIONS.length : Int)) = True :=
    eq_true (by rw [hlen]; exact h7)
  simp only [continue_prisma, hidx, hyn, Option.getD, hc, if_true, hpy,
    prismaTextAt, hq]

/-- A mid-wizard state: three answers recorded, question 4 outstanding. -/
def prismaMidState : SessionState :=
  { new_session with
    messages := [⟨str "user", str "perhaps"⟩],
    awaiting := some (str "prisma"),
    prisma_index := some 3,
    prisma_answers := some [(str "over_85", .bool false), (str "male", .bool true),
                            (str "limit_activities", .bool false)] }

/-- Witness for C5 at a concrete mid-wizard state and unparseable input. -/
theorem continue_prisma_unparseable_witness :
    prismaMidState.awaiting = some (str "prisma")
    ∧ prismaMidState.prisma_index = some 3
    ∧ (0 : Int) ≤ 3 ∧ (3 : Int) < 7
    ∧ _yn (lastContent prismaMidState) = none
    ∧ continue_prisma prismaMidState = .ok { prismaMidState with
        prisma_answers := some (prismaMidState.prisma_answers.getD []),
        awaiting := some (str "prisma"),
        reply := some (str "Q" ++ pyIntStr (3 + 1) ++ str ": " ++ prismaTextAt 3) } :=
  ⟨rfl, rfl, by decide, by decide, rfl,
   continue_prisma_unparseable prismaMidState 3 rfl rfl (by decide) (by decide) rfl⟩

/-- A fixed environment for evaluating concrete turns (its values are
irrelevant to the failing path). -/
def trivialEnv : Env := ⟨fun _ => 0, fun _ _ => .dict [], 0⟩

/-- C4 fails on the code: from a fresh session, "energy 7" legitimately
leaves the machine awaiting `slot:mood`; the next turn with an empty or
whitespace-only message then raises `IndexError` in `collect_slot_answer`
(`user.strip().split()[0]` on an empty split), instead of re-prompting —
so a full turn is *not* exception-free for every input. -/
theorem chat_empty_message_raises :
    (chat trivialEnv new_session (str "s1") (str "energy 7")).toOption.map
        SessionState.awaiting = some (some (str "slot:mood"))
    ∧ (match chat trivialEnv new_session (str "s1") (str "energy 7") with
       | .ok st1 => chat trivialEnv st1 (str "s1") (str "")
       | .error e => .error e) = .error PyErr.indexError
    ∧ (match chat trivialEnv new_session (str "s1") (str "energy 7") with
       | .ok st1 => chat trivialEnv st1 (str "s1") (str "   ")
       | .error e => .error e) = .error PyErr.indexError :=
  ⟨rfl, rfl, rfl⟩
